import Mathlib

/-!
Verification of the Device.LocalAgent.MTP lifecycle manager (device_mtp.c).

The C module keeps a fixed-capacity array of agent MTP slots (`agent_mtps`)
synchronized with a persisted configuration store, and drives STOMP reconnect
scheduling and CoAP server start/stop as the configuration changes.

Shallow embedding choices:
- `agent_mtp_t` mirrors the C struct; owned C strings become `Option String`
  (`none` models a NULL pointer, as left by `memset` or `USP_SAFE_FREE`).
- The slot array becomes a `List agent_mtp_t`; a slot is free iff its
  `instance_` field is the sentinel `INVALID` (-1).
- Side effects on the transport modules (`DEVICE_STOMP_ScheduleReconnect`,
  `COAP_StopServer`, `COAP_StartServer`, `DATA_MODEL_SetParameterValue`) are
  recorded as an ordered list of `Action`s.
- Results of external calls that can fail (database reads, `COAP_StartServer`)
  are passed in as explicit parameters.
- A `USP_ASSERT(mtp != NULL)` lookup failure is modelled as an
  `UspErr.internalError` result that leaves the store untouched.
-/

namespace UspMtp

/-- Sentinel marking a slot as free / a reference as unset (C macro INVALID = -1). -/
def INVALID : Int := -1

/-- mtp_protocol_t from the C source (kMtpProtocol_None / STOMP / CoAP). -/
inductive mtp_protocol_t
  | kMtpProtocol_None
  | kMtpProtocol_STOMP
  | kMtpProtocol_CoAP
deriving DecidableEq, Repr

/-- mtp_status_t from the C source. -/
inductive mtp_status_t
  | kMtpStatus_Error
  | kMtpStatus_Down
  | kMtpStatus_Up
deriving DecidableEq, Repr

/-- USP error codes used by this module. -/
inductive UspErr
  | ok
  | resourcesExceeded
  | invalidValue
  | internalError
  | generalFailure
deriving DecidableEq, Repr

/-- agent_mtp_t: one entry of the Device.LocalAgent.MTP.\x7bi\x7d table.
`instance_` is the data-model instance number (INVALID when the slot is free);
the two owned strings are `Option String` so that a freed (NULL) string is
distinguishable from an empty one. -/
structure agent_mtp_t where
  instance_ : Int
  enable : Bool
  protocol : mtp_protocol_t
  stomp_connection_instance : Int
  stomp_agent_queue : Option String
  coap_port : Nat
  coap_path : Option String
deriving DecidableEq, Repr

/-- External side effects issued by the handlers, in program order. -/
inductive Action
  | scheduleReconnect (conn : Int)
  | coapStop (inst : Int)
  | coapStart (inst : Int) (port : Nat) (path : Option String)
  | dbSetStompRef (inst : Int) (value : String)
deriving DecidableEq, Repr

/-- The agent_mtps array. -/
abbrev MtpStore := List agent_mtp_t

/-- Result of a mutation handler: USP error code, post-state of the slot
array, and the external actions issued (in order). -/
structure HandlerResult where
  err : UspErr
  store : MtpStore
  actions : List Action
deriving DecidableEq, Repr

/-- The per-slot state established by DEVICE_MTP_Init: memset to zero
(protocol 0 = None, stomp_connection_instance 0, strings NULL) and then
instance set to INVALID. -/
def initFreeAgentMtp : agent_mtp_t :=
  { instance_ := INVALID
    enable := false
    protocol := mtp_protocol_t.kMtpProtocol_None
    stomp_connection_instance := 0
    stomp_agent_queue := none
    coap_port := 0
    coap_path := none }

/-- The slot state established at the top of ProcessAgentMtpAdded: memset to
zero, then instance and stomp_connection_instance set. -/
def initAgentMtp (inst : Int) : agent_mtp_t :=
  { instance_ := inst
    enable := false
    protocol := mtp_protocol_t.kMtpProtocol_None
    stomp_connection_instance := INVALID
    stomp_agent_queue := none
    coap_port := 0
    coap_path := none }

/-- Loop body of FindAgentMtpByInstance: first slot whose instance field
equals `inst`, together with its array index (the C function returns a
pointer into the array, which we model as index + value). -/
def findAgentMtpAux : List agent_mtp_t → Int → Nat → Option (Nat × agent_mtp_t)
  | [], _, _ => none
  | mtp :: rest, inst, i =>
      if mtp.instance_ = inst then some (i, mtp) else findAgentMtpAux rest inst (i + 1)

/-- FindAgentMtpByInstance: linear scan of agent_mtps on instance equality
alone; NULL becomes `none`. -/
def FindAgentMtpByInstance (store : MtpStore) (inst : Int) : Option agent_mtp_t :=
  (findAgentMtpAux store inst 0).map Prod.snd

/-- Loop body of FindUnusedAgentMtp: first slot whose instance is INVALID. -/
def findUnusedAgentMtpAux : List agent_mtp_t → Nat → Option (Nat × agent_mtp_t)
  | [], _ => none
  | mtp :: rest, i =>
      if mtp.instance_ = INVALID then some (i, mtp) else findUnusedAgentMtpAux rest (i + 1)

/-- FindUnusedAgentMtp: first free slot, or NULL (`none`) when the table is full. -/
def FindUnusedAgentMtp (store : MtpStore) : Option agent_mtp_t :=
  (findUnusedAgentMtpAux store 0).map Prod.snd

/-- DestroyAgentMtp: marks the slot free and resets every field, freeing the
owned strings (USP_SAFE_FREE sets the pointers to NULL). -/
def DestroyAgentMtp (mtp : agent_mtp_t) : agent_mtp_t :=
  { mtp with
    instance_ := INVALID
    protocol := mtp_protocol_t.kMtpProtocol_None
    enable := false
    stomp_connection_instance := INVALID
    stomp_agent_queue := none
    coap_path := none
    coap_port := 0 }

/-- ValidateAdd_AgentMtp: capacity check only; fails with
USP_ERR_RESOURCES_EXCEEDED when no free slot exists, touches nothing. -/
def ValidateAdd_AgentMtp (store : MtpStore) : HandlerResult :=
  match FindUnusedAgentMtp store with
  | none => ⟨UspErr.resourcesExceeded, store, []⟩
  | some _ => ⟨UspErr.ok, store, []⟩

/-- DEVICE_MTP_GetAgentStompQueue: first non-free, enabled STOMP slot bound to
the given connection instance with a non-empty agent queue; returns that
queue string, else NULL. (`getD ""` reads the C expression
stomp_agent_queue[0], which is only evaluated on slots whose queue string
was populated.) -/
def DEVICE_MTP_GetAgentStompQueue : MtpStore → Int → Option String
  | [], _ => none
  | mtp :: rest, inst =>
      if mtp.instance_ ≠ INVALID ∧ mtp.enable = true ∧
         mtp.stomp_connection_instance = inst ∧
         mtp.protocol = mtp_protocol_t.kMtpProtocol_STOMP ∧
         mtp.stomp_agent_queue.getD "" ≠ ""
      then mtp.stomp_agent_queue
      else DEVICE_MTP_GetAgentStompQueue rest inst

/-- DEVICE_MTP_NotifyStompConnDeleted: for every non-free slot whose protocol
is STOMP and whose connection reference equals the deleted instance, write an
empty value to the persisted STOMP.Reference parameter of that slot. -/
def DEVICE_MTP_NotifyStompConnDeleted (stomp_instance : Int) : MtpStore → List Action
  | [] => []
  | mtp :: rest =>
      (if mtp.instance_ ≠ INVALID ∧ mtp.protocol = mtp_protocol_t.kMtpProtocol_STOMP ∧
          mtp.stomp_connection_instance = stomp_instance
       then [Action.dbSetStompRef mtp.instance_ ""] else []) ++
      DEVICE_MTP_NotifyStompConnDeleted stomp_instance rest

/-- Notify_AgentMtpDeleted: look the slot up; absent means success (no-op).
If the slot is found but not enabled, the handler returns success immediately
(the C code returns before reaching DestroyAgentMtp). If enabled, it issues
the protocol-specific teardown (schedule a reconnect for a set STOMP
connection reference, stop the CoAP server) and then destroys the slot. -/
def Notify_AgentMtpDeleted (inst1 : Int) (store : MtpStore) : HandlerResult :=
  match findAgentMtpAux store inst1 0 with
  | none => ⟨UspErr.ok, store, []⟩
  | some (i, mtp) =>
      if mtp.enable = false then ⟨UspErr.ok, store, []⟩
      else
        let acts : List Action :=
          match mtp.protocol with
          | mtp_protocol_t.kMtpProtocol_STOMP =>
              if mtp.stomp_connection_instance ≠ INVALID
              then [Action.scheduleReconnect mtp.stomp_connection_instance] else []
          | mtp_protocol_t.kMtpProtocol_CoAP => [Action.coapStop mtp.instance_]
          | mtp_protocol_t.kMtpProtocol_None => []
        ⟨UspErr.ok, store.set i (DestroyAgentMtp mtp), acts⟩

/-- NotifyChange_AgentMtpCoAPPort: no-op when the new port equals the stored
one; otherwise store the new port and, when the slot is an enabled CoAP MTP,
stop then restart the CoAP server, surfacing the restart result
(`coapStartResult` is the value COAP_StartServer returns). -/
def NotifyChange_AgentMtpCoAPPort (inst1 : Int) (val_uint : Nat) (coapStartResult : UspErr)
    (store : MtpStore) : HandlerResult :=
  match findAgentMtpAux store inst1 0 with
  | none => ⟨UspErr.internalError, store, []⟩
  | some (i, mtp) =>
      if val_uint = mtp.coap_port then ⟨UspErr.ok, store, []⟩
      else
        let mtp2 := { mtp with coap_port := val_uint }
        if mtp2.protocol = mtp_protocol_t.kMtpProtocol_CoAP ∧ mtp2.enable = true then
          ⟨coapStartResult, store.set i mtp2,
           [Action.coapStop inst1, Action.coapStart mtp2.instance_ mtp2.coap_port mtp2.coap_path]⟩
        else ⟨UspErr.ok, store.set i mtp2, []⟩

/-- NotifyChange_AgentMtpCoAPPath: always replaces the stored path (free +
strdup, with no comparison against the old value) and, when the slot is an
enabled CoAP MTP, stops then restarts the CoAP server, surfacing the restart
result. -/
def NotifyChange_AgentMtpCoAPPath (inst1 : Int) (value : String) (coapStartResult : UspErr)
    (store : MtpStore) : HandlerResult :=
  match findAgentMtpAux store inst1 0 with
  | none => ⟨UspErr.internalError, store, []⟩
  | some (i, mtp) =>
      let mtp2 := { mtp with coap_path := some value }
      if mtp2.protocol = mtp_protocol_t.kMtpProtocol_CoAP ∧ mtp2.enable = true then
        ⟨coapStartResult, store.set i mtp2,
         [Action.coapStop inst1, Action.coapStart mtp2.instance_ mtp2.coap_port mtp2.coap_path]⟩
      else ⟨UspErr.ok, store.set i mtp2, []⟩

/-- NotifyChange_AgentMtpStompReference. `resolution` is the outcome of
DEVICE_MTP_GetStompReference on the new raw value: an error code together
with the resolved connection instance (INVALID when the value is empty).
On resolution failure the stored reference is forced to INVALID and the error
returned; on success the new reference is stored and, for an enabled STOMP
slot whose reference actually changed, a reconnect is scheduled for the old
reference (if set) and for the new one (if set). -/
def NotifyChange_AgentMtpStompReference (inst1 : Int) (resolution : UspErr × Int)
    (store : MtpStore) : HandlerResult :=
  match findAgentMtpAux store inst1 0 with
  | none => ⟨UspErr.internalError, store, []⟩
  | some (i, mtp) =>
      let err := resolution.1
      let new_connection_instance := resolution.2
      if err ≠ UspErr.ok then
        ⟨err, store.set i { mtp with stomp_connection_instance := INVALID }, []⟩
      else
        let last_connection_instance := mtp.stomp_connection_instance
        let mtp2 := { mtp with stomp_connection_instance := new_connection_instance }
        let acts : List Action :=
          if mtp2.enable = true ∧ mtp2.protocol = mtp_protocol_t.kMtpProtocol_STOMP ∧
             last_connection_instance ≠ new_connection_instance then
            (if last_connection_instance ≠ INVALID
             then [Action.scheduleReconnect last_connection_instance] else []) ++
            (if new_connection_instance ≠ INVALID
             then [Action.scheduleReconnect new_connection_instance] else [])
          else []
        ⟨err, store.set i mtp2, acts⟩

/-- Get_MtpStatus: aggregate status of a slot. Lookup failure (the C code
asserts) is `none`. Disabled slots always report Down; enabled slots delegate
to the STOMP connection or the CoAP server according to the protocol, and an
enabled slot with protocol None reports Error. `stompStatus` and `coapStatus`
stand for DEVICE_STOMP_GetMtpStatus and COAP_GetServerStatus. -/
def Get_MtpStatus (stompStatus : Int → mtp_status_t) (coapStatus : Int → mtp_status_t)
    (inst1 : Int) (store : MtpStore) : Option mtp_status_t :=
  match FindAgentMtpByInstance store inst1 with
  | none => none
  | some mtp =>
      some (if mtp.enable = true then
              match mtp.protocol with
              | mtp_protocol_t.kMtpProtocol_STOMP => stompStatus mtp.stomp_connection_instance
              | mtp_protocol_t.kMtpProtocol_CoAP => coapStatus mtp.instance_
              | mtp_protocol_t.kMtpProtocol_None => mtp_status_t.kMtpStatus_Error
            else mtp_status_t.kMtpStatus_Down)

/-- Results of the six persisted-store reads performed by
ProcessAgentMtpAdded for one instance, in the order the C code issues them,
plus the result COAP_StartServer would return. Each read yields a USP error
code and the value delivered through the out-parameter. -/
structure MtpDb where
  enableRead : UspErr × Bool
  protocolRead : UspErr × mtp_protocol_t
  stompRefRead : UspErr × Int
  destinationRead : UspErr × String
  coapPortRead : UspErr × Nat
  coapPathRead : UspErr × String
  coapStartResult : UspErr
deriving DecidableEq, Repr

/-- The straight-line read sequence of ProcessAgentMtpAdded: each failing
read aborts with the slot as written so far; after all reads succeed, an
enabled CoAP slot starts its server immediately (recording the action and
taking the server's result as the outcome). Returns (err, slot, actions). -/
def readAgentMtpParams (db : MtpDb) (m0 : agent_mtp_t) : UspErr × agent_mtp_t × List Action :=
  let (e1, b) := db.enableRead
  if e1 ≠ UspErr.ok then (e1, m0, []) else
  let m1 := { m0 with enable := b }
  let (e2, p) := db.protocolRead
  if e2 ≠ UspErr.ok then (e2, m1, []) else
  let m2 := { m1 with protocol := p }
  let (e3, r) := db.stompRefRead
  if e3 ≠ UspErr.ok then (e3, { m2 with stomp_connection_instance := INVALID }, []) else
  let m3 := { m2 with stomp_connection_instance := r }
  let (e4, d) := db.destinationRead
  if e4 ≠ UspErr.ok then (e4, m3, []) else
  let m4 := { m3 with stomp_agent_queue := some d }
  let (e5, port) := db.coapPortRead
  if e5 ≠ UspErr.ok then (e5, m4, []) else
  let m5 := { m4 with coap_port := port }
  let (e6, pth) := db.coapPathRead
  if e6 ≠ UspErr.ok then (e6, m5, []) else
  let m6 := { m5 with coap_path := some pth }
  if m6.protocol = mtp_protocol_t.kMtpProtocol_CoAP ∧ m6.enable = true then
    (db.coapStartResult, m6, [Action.coapStart m6.instance_ m6.coap_port m6.coap_path])
  else (UspErr.ok, m6, [])

/-- ProcessAgentMtpAdded: allocate a free slot (ResourceExhausted when the
table is full), initialise it, run the read sequence; on any failure the slot
is destroyed at the exit label. The final STOMP reconnect guard is evaluated
on the slot as it stands after that exit handling, and the accumulated
actions are emitted in program order. -/
def ProcessAgentMtpAdded (inst : Int) (db : MtpDb) (store : MtpStore) : HandlerResult :=
  match findUnusedAgentMtpAux store 0 with
  | none => ⟨UspErr.resourcesExceeded, store, []⟩
  | some (i, _) =>
      let p := readAgentMtpParams db (initAgentMtp inst)
      let err := p.1
      let m1 := p.2.1
      let acts := p.2.2
      let m2 := if err = UspErr.ok then m1 else DestroyAgentMtp m1
      let acts2 := acts ++
        (if m2.enable = true ∧ m2.protocol = mtp_protocol_t.kMtpProtocol_STOMP ∧
            m2.stomp_connection_instance ≠ INVALID
         then [Action.scheduleReconnect m2.stomp_connection_instance] else [])
      ⟨err, store.set i m2, acts2⟩

/-! Helper lemmas about the store primitives. -/

/-- The by-instance scan run with the sentinel performs exactly the free-slot
scan: the two loops test the same condition on each slot. -/
theorem findAgentMtpAux_sentinel (l : List agent_mtp_t) :
    ∀ k, findAgentMtpAux l INVALID k = findUnusedAgentMtpAux l k := by
  induction l with
  | nil => intro k; rfl
  | cons m rest ih =>
      intro k
      by_cases h : m.instance_ = INVALID <;>
        simp [findAgentMtpAux, findUnusedAgentMtpAux, h, ih]

/-- The free-slot scan fails exactly when every slot is occupied. -/
theorem findUnusedAgentMtpAux_eq_none_iff (l : List agent_mtp_t) :
    ∀ k, findUnusedAgentMtpAux l k = none ↔ ∀ m ∈ l, m.instance_ ≠ INVALID := by
  induction l with
  | nil => intro k; simp [findUnusedAgentMtpAux]
  | cons m rest ih =>
      intro k
      by_cases h : m.instance_ = INVALID <;>
        simp [findUnusedAgentMtpAux, h, ih]

/-- If no slot carries the sought instance, the by-instance scan fails. -/
theorem findAgentMtpAux_eq_none (l : List agent_mtp_t) (inst : Int)
    (h : ∀ m ∈ l, m.instance_ ≠ inst) : ∀ k, findAgentMtpAux l inst k = none := by
  induction l with
  | nil => intro k; rfl
  | cons m rest ih =>
      intro k
      have h1 : m.instance_ ≠ inst := h m (by simp)
      have h2 : ∀ m2 ∈ rest, m2.instance_ ≠ inst := fun m2 hm => h m2 (by simp [hm])
      simp [findAgentMtpAux, h1, ih h2]

/-- The index returned by the free-slot scan is in bounds. -/
theorem findUnusedAgentMtpAux_lt (l : List agent_mtp_t) :
    ∀ k i m, findUnusedAgentMtpAux l k = some (i, m) → i < k + l.length := by
  induction l with
  | nil => intro k i m h; simp [findUnusedAgentMtpAux] at h
  | cons a rest ih =>
      intro k i m h
      simp only [findUnusedAgentMtpAux] at h
      split at h
      · simp only [Option.some.injEq, Prod.mk.injEq] at h
        obtain ⟨h1, h2⟩ := h
        simp only [List.length_cons]
        omega
      · have := ih (k + 1) i m h
        simp only [List.length_cons]
        omega

/-- Destroying a slot yields the canonical free-slot value, whatever the slot
held: every field is reset and both owned strings are freed. -/
theorem DestroyAgentMtp_eq_free (m : agent_mtp_t) : DestroyAgentMtp m = initAgentMtp INVALID := rfl

/-- The population read sequence never schedules a STOMP reconnect itself:
its only recorded action is the possible CoAP server start. -/
theorem readAgentMtpParams_no_reconnect (db : MtpDb) (m0 : agent_mtp_t) (c : Int) :
    Action.scheduleReconnect c ∉ (readAgentMtpParams db m0).2.2 := by
  rcases db with ⟨⟨e1, b⟩, ⟨e2, p⟩, ⟨e3, r⟩, ⟨e4, d⟩, ⟨e5, port⟩, ⟨e6, pth⟩, csr⟩
  unfold readAgentMtpParams
  dsimp only
  repeat' split
  all_goals simp

/-- FindUnusedAgentMtp fails exactly when every slot is occupied. -/
theorem findUnusedAgentMtp_eq_none_iff (store : MtpStore) :
    FindUnusedAgentMtp store = none ↔ ∀ m ∈ store, m.instance_ ≠ INVALID := by
  unfold FindUnusedAgentMtp
  rw [Option.map_eq_none']
  exact findUnusedAgentMtpAux_eq_none_iff store 0

/-- The eligibility test of DEVICE_MTP_GetAgentStompQueue: non-free, enabled,
bound to the given STOMP connection, protocol STOMP, non-empty agent queue. -/
def agentStompQueueMatch (inst : Int) (m : agent_mtp_t) : Bool :=
  decide (m.instance_ ≠ INVALID ∧ m.enable = true ∧ m.stomp_connection_instance = inst ∧
    m.protocol = mtp_protocol_t.kMtpProtocol_STOMP ∧ m.stomp_agent_queue.getD "" ≠ "")

/-- The queue-resolution loop returns the queue of the first eligible slot. -/
theorem getAgentStompQueue_eq_find (store : MtpStore) (inst : Int) :
    DEVICE_MTP_GetAgentStompQueue store inst =
      (store.find? (agentStompQueueMatch inst)).bind (fun m => m.stomp_agent_queue) := by
  induction store with
  | nil => rfl
  | cons m rest ih =>
      by_cases h : m.instance_ ≠ INVALID ∧ m.enable = true ∧
          m.stomp_connection_instance = inst ∧
          m.protocol = mtp_protocol_t.kMtpProtocol_STOMP ∧ m.stomp_agent_queue.getD "" ≠ "" <;>
        simp [DEVICE_MTP_GetAgentStompQueue, List.find?_cons, agentStompQueueMatch, h, ih]

/-- C8: for every connection instance, resolve-queue-for-connection returns
the stored destination of the first slot in array order that is non-free,
enabled, protocol STOMP, bound to that connection and with a non-empty
destination, and it returns NULL exactly when no slot satisfies all of these
conditions. -/
theorem getAgentStompQueue_spec (store : MtpStore) (inst : Int) :
    DEVICE_MTP_GetAgentStompQueue store inst =
      (store.find? (agentStompQueueMatch inst)).bind (fun m => m.stomp_agent_queue) ∧
    (DEVICE_MTP_GetAgentStompQueue store inst = none ↔
      ∀ m ∈ store, agentStompQueueMatch inst m = false) := by
  refine ⟨getAgentStompQueue_eq_find store inst, ?_⟩
  rw [getAgentStompQueue_eq_find store inst]
  cases hf : store.find? (agentStompQueueMatch inst) with
  | none =>
      have hnone := List.find?_eq_none.1 hf
      simp only [Option.none_bind]
      constructor
      · intro _ m hm
        simpa using hnone m hm
      · intro _; trivial
  | some m0 =>
      have hp := List.find?_some hf
      have hm0 : m0 ∈ store := List.mem_of_find?_eq_some hf
      have hq : m0.stomp_agent_queue ≠ none := by
        unfold agentStompQueueMatch at hp
        simp only [decide_eq_true_eq] at hp
        cases hqq : m0.stomp_agent_queue with
        | none => rw [hqq] at hp; simp at hp
        | some s => simp [hqq]
      simp only [Option.some_bind]
      constructor
      · intro h; exact absurd h hq
      · intro h
        have := h m0 hm0
        rw [hp] at this
        cases this

/-- C9: the STOMP-connection-deleted cascade writes an empty value to the
persisted STOMP.Reference parameter of exactly those slots that are non-free,
have protocol STOMP and whose stored connection reference equals the deleted
instance — one write per matching slot in array order, and no other action. -/
theorem notifyStompConnDeleted_spec (c : Int) (store : MtpStore) :
    DEVICE_MTP_NotifyStompConnDeleted c store =
      (store.filter (fun m => decide (m.instance_ ≠ INVALID ∧
          m.protocol = mtp_protocol_t.kMtpProtocol_STOMP ∧
          m.stomp_connection_instance = c))).map
        (fun m => Action.dbSetStompRef m.instance_ "") := by
  induction store with
  | nil => rfl
  | cons m rest ih =>
      by_cases h : m.instance_ ≠ INVALID ∧ m.protocol = mtp_protocol_t.kMtpProtocol_STOMP ∧
          m.stomp_connection_instance = c <;>
        simp [DEVICE_MTP_NotifyStompConnDeleted, List.filter_cons, h, ih]

/-- C5: ValidateAdd_AgentMtp never touches the store and issues no action; it
fails with ResourceExhausted exactly when every slot is occupied and succeeds
exactly when at least one slot is free. -/
theorem validateAddAgentMtp_spec (store : MtpStore) :
    (ValidateAdd_AgentMtp store).store = store ∧
    (ValidateAdd_AgentMtp store).actions = [] ∧
    ((ValidateAdd_AgentMtp store).err = UspErr.resourcesExceeded ↔
      ∀ m ∈ store, m.instance_ ≠ INVALID) ∧
    ((ValidateAdd_AgentMtp store).err = UspErr.ok ↔
      ∃ m ∈ store, m.instance_ = INVALID) := by
  unfold ValidateAdd_AgentMtp
  cases hf : FindUnusedAgentMtp store with
  | none =>
      have hall := (findUnusedAgentMtp_eq_none_iff store).1 hf
      refine ⟨rfl, rfl, ⟨fun _ => hall, fun _ => rfl⟩, ?_⟩
      constructor
      · intro h; cases h
      · rintro ⟨m, hm, hinv⟩; exact absurd hinv (hall m hm)
  | some m0 =>
      have hne : FindUnusedAgentMtp store ≠ none := by simp [hf]
      have hex : ∃ m ∈ store, m.instance_ = INVALID := by
        by_contra hc
        push_neg at hc
        exact hne ((findUnusedAgentMtp_eq_none_iff store).2 hc)
      refine ⟨rfl, rfl, ?_, ⟨fun _ => hex, fun _ => rfl⟩⟩
      constructor
      · intro h; cases h
      · intro hall
        obtain ⟨m, hm, hinv⟩ := hex
        exact absurd hinv (hall m hm)

/-- C10: the by-instance lookup does not exclude free slots — called with the
sentinel on a store holding at least one free slot it returns the first free
slot (the same slot FindUnusedAgentMtp returns) instead of reporting
not-found, because free slots carry the sentinel as their instance and the
scan matches on instance equality alone. -/
theorem findByInstance_sentinel_spec (store : MtpStore)
    (h : ∃ m ∈ store, m.instance_ = INVALID) :
    FindAgentMtpByInstance store INVALID = FindUnusedAgentMtp store ∧
    FindAgentMtpByInstance store INVALID ≠ none := by
  have he : FindAgentMtpByInstance store INVALID = FindUnusedAgentMtp store := by
    unfold FindAgentMtpByInstance FindUnusedAgentMtp
    rw [findAgentMtpAux_sentinel store 0]
  refine ⟨he, ?_⟩
  rw [he]
  intro hn
  have hall := (findUnusedAgentMtp_eq_none_iff store).1 hn
  obtain ⟨m, hm, hinv⟩ := h
  exact hall m hm hinv

/-- Witness for C10 at a concrete store: the freshly initialised single-slot
store is free, and lookup with the sentinel finds that slot. -/
theorem findByInstance_sentinel_spec_witness :
    FindAgentMtpByInstance [initFreeAgentMtp] INVALID ≠ none :=
  (findByInstance_sentinel_spec [initFreeAgentMtp] (by decide)).2

/-- A populated but disabled slot: instance 1, STOMP, bound to connection 2,
owning a destination string. -/
def disabledSlot : agent_mtp_t :=
  { instance_ := 1
    enable := false
    protocol := mtp_protocol_t.kMtpProtocol_STOMP
    stomp_connection_instance := 2
    stomp_agent_queue := some "q"
    coap_port := 0
    coap_path := none }

/-- C1, counterexample: deleting instance 1 while its slot is present but
disabled returns success yet leaves the slot exactly as it was — still
occupied (lookup by instance 1 still succeeds) with its owned destination
string still held — refuting the claim that the delete handler releases the
slot unconditionally for every present instance. -/
theorem notifyAgentMtpDeleted_disabled_slot_not_released :
    (Notify_AgentMtpDeleted 1 [disabledSlot]).err = UspErr.ok ∧
    (Notify_AgentMtpDeleted 1 [disabledSlot]).store = [disabledSlot] ∧
    FindAgentMtpByInstance (Notify_AgentMtpDeleted 1 [disabledSlot]).store 1 =
      some disabledSlot ∧
    disabledSlot.instance_ ≠ INVALID ∧ disabledSlot.stomp_agent_queue ≠ none := by
  decide

/-- C1, amended: for a delete notification whose instance has a slot present
in the store, the handler returns success in every case, but it tears down
and releases the slot only when the slot is enabled: then a STOMP slot with a
set connection reference schedules a reconnect of that connection, a CoAP
slot stops its server, and the slot is reset to the canonical free state
(instance set to the sentinel, owned strings released). When the slot is
present but disabled the handler returns success leaving the slot untouched
and issues no action. -/
theorem notifyAgentMtpDeleted_spec (inst1 : Int) (store : MtpStore) (i : Nat)
    (mtp : agent_mtp_t) (h : findAgentMtpAux store inst1 0 = some (i, mtp)) :
    (mtp.enable = false → Notify_AgentMtpDeleted inst1 store = ⟨UspErr.ok, store, []⟩) ∧
    (mtp.enable = true →
      Notify_AgentMtpDeleted inst1 store =
        ⟨UspErr.ok, store.set i (initAgentMtp INVALID),
         match mtp.protocol with
         | mtp_protocol_t.kMtpProtocol_STOMP =>
             if mtp.stomp_connection_instance ≠ INVALID
             then [Action.scheduleReconnect mtp.stomp_connection_instance] else []
         | mtp_protocol_t.kMtpProtocol_CoAP => [Action.coapStop mtp.instance_]
         | mtp_protocol_t.kMtpProtocol_None => []⟩) := by
  constructor
  · intro he
    simp [Notify_AgentMtpDeleted, h, he]
  · intro he
    simp [Notify_AgentMtpDeleted, h, he, DestroyAgentMtp_eq_free]

/-- An enabled STOMP slot used to witness the amended C1 delete behaviour. -/
def enabledStompSlot : agent_mtp_t :=
  { instance_ := 3
    enable := true
    protocol := mtp_protocol_t.kMtpProtocol_STOMP
    stomp_connection_instance := 7
    stomp_agent_queue := some "a"
    coap_port := 0
    coap_path := none }

/-- Witness for the amended C1 statement: deleting the enabled STOMP slot
schedules a reconnect of connection 7 and leaves the slot free. -/
theorem notifyAgentMtpDeleted_spec_witness :
    Notify_AgentMtpDeleted 3 [enabledStompSlot] =
      ⟨UspErr.ok, [initAgentMtp INVALID], [Action.scheduleReconnect 7]⟩ := by
  have h := notifyAgentMtpDeleted_spec 3 [enabledStompSlot] 0 enabledStompSlot (by decide)
  have h2 := h.2 rfl
  rw [h2]
  rfl

/-- A run of the population read sequence that resolves enable = true,
protocol STOMP and connection reference 1, and then fails reading the
STOMP destination. -/
def failingDestinationDb : MtpDb :=
  { enableRead := (UspErr.ok, true)
    protocolRead := (UspErr.ok, mtp_protocol_t.kMtpProtocol_STOMP)
    stompRefRead := (UspErr.ok, 1)
    destinationRead := (UspErr.invalidValue, "")
    coapPortRead := (UspErr.ok, 5683)
    coapPathRead := (UspErr.ok, "")
    coapStartResult := UspErr.ok }

/-- C2, counterexample: a population run whose reads resolve the state
(enabled, protocol STOMP, connection reference 1) and then fail returns the
read error and issues no action at all — in particular no reconnect is
scheduled for connection 1 — because the slot is destroyed at the exit label
before the reconnect guard inspects it, refuting the claim that the
scheduling happens even when population failed. -/
theorem processAgentMtpAdded_failed_run_schedules_nothing :
    (ProcessAgentMtpAdded 2 failingDestinationDb [initFreeAgentMtp]).err =
      UspErr.invalidValue ∧
    (ProcessAgentMtpAdded 2 failingDestinationDb [initFreeAgentMtp]).actions = [] := by
  decide

/-- C2, amended: the final reconnect of a population run is scheduled only
when the run succeeded: on any population failure the slot is destroyed
before the reconnect guard runs, so no reconnect is ever scheduled; on
success, if the slot as stored resolves to enabled, protocol STOMP and a set
connection reference, a reconnect for that reference is among the issued
actions. -/
theorem processAgentMtpAdded_reconnect_only_on_success (inst : Int) (db : MtpDb)
    (store : MtpStore) :
    ((ProcessAgentMtpAdded inst db store).err ≠ UspErr.ok →
      ∀ c, Action.scheduleReconnect c ∉ (ProcessAgentMtpAdded inst db store).actions) ∧
    (∀ i mtp0, findUnusedAgentMtpAux store 0 = some (i, mtp0) →
      (ProcessAgentMtpAdded inst db store).err = UspErr.ok →
      ∀ m, (ProcessAgentMtpAdded inst db store).store[i]? = some m →
        m.enable = true → m.protocol = mtp_protocol_t.kMtpProtocol_STOMP →
        m.stomp_connection_instance ≠ INVALID →
        Action.scheduleReconnect m.stomp_connection_instance ∈
          (ProcessAgentMtpAdded inst db store).actions) := by
  cases hf : findUnusedAgentMtpAux store 0 with
  | none =>
      constructor
      · intro _ c
        simp [ProcessAgentMtpAdded, hf]
      · intro i mtp0 hsome
        exact Option.noConfusion hsome
  | some im =>
      obtain ⟨i0, m0⟩ := im
      by_cases hp : (readAgentMtpParams db (initAgentMtp inst)).1 = UspErr.ok
      · constructor
        · intro herr
          exact absurd (by simp [ProcessAgentMtpAdded, hf, hp]) herr
        · intro i mtp0 hsome herr m hm hen hpr hconn
          injection hsome with hsome
          injection hsome with hi hm0
          subst hi
          have hlt : i0 < store.length := by
            simpa using findUnusedAgentMtpAux_lt store 0 i0 m0 hf
          simp only [ProcessAgentMtpAdded, hf, hp, if_pos] at hm ⊢
          rw [List.getElem?_set_eq_of_lt _ hlt] at hm
          injection hm with hm
          subst hm
          simp [hen, hpr, hconn, List.mem_append]
      · constructor
        · intro _ c
          simp only [ProcessAgentMtpAdded, hf]
          simp only [if_neg hp, List.mem_append]
          rintro (hc | hc)
          · exact readAgentMtpParams_no_reconnect db (initAgentMtp inst) c hc
          · rw [DestroyAgentMtp_eq_free] at hc
            simp [initAgentMtp] at hc
        · intro i mtp0 hsome herr
          exact absurd herr (by simp [ProcessAgentMtpAdded, hf, hp])

/-- Witness for the amended C2 statement: in the concrete failing run no
reconnect for connection 1 is issued. -/
theorem processAgentMtpAdded_reconnect_only_on_success_witness :
    Action.scheduleReconnect 1 ∉
      (ProcessAgentMtpAdded 2 failingDestinationDb [initFreeAgentMtp]).actions :=
  (processAgentMtpAdded_reconnect_only_on_success 2 failingDestinationDb
    [initFreeAgentMtp]).1 (by decide) 1

/-- C6: a population run that fails (any failing persisted read, or a failing
immediate CoAP server start) releases the allocated slot before returning, so
provided the added instance is a genuine instance number not already present
in the store, no slot with that instance is reachable afterwards. -/
theorem processAgentMtpAdded_failure_releases_slot (inst : Int) (db : MtpDb)
    (store : MtpStore) (hinst : inst ≠ INVALID)
    (hnew : ∀ m ∈ store, m.instance_ ≠ inst) :
    (ProcessAgentMtpAdded inst db store).err ≠ UspErr.ok →
    FindAgentMtpByInstance (ProcessAgentMtpAdded inst db store).store inst = none := by
  intro herr
  cases hf : findUnusedAgentMtpAux store 0 with
  | none =>
      simp only [ProcessAgentMtpAdded, hf]
      unfold FindAgentMtpByInstance
      rw [findAgentMtpAux_eq_none store inst hnew 0]
      rfl
  | some im =>
      obtain ⟨i0, m0⟩ := im
      by_cases hp : (readAgentMtpParams db (initAgentMtp inst)).1 = UspErr.ok
      · exact absurd (by simp [ProcessAgentMtpAdded, hf, hp]) herr
      · simp only [ProcessAgentMtpAdded, hf, if_neg hp]
        unfold FindAgentMtpByInstance
        have hset : ∀ m ∈ store.set i0 (DestroyAgentMtp
            (readAgentMtpParams db (initAgentMtp inst)).2.1), m.instance_ ≠ inst := by
          intro m hm
          rcases List.mem_or_eq_of_mem_set hm with hmem | heq
          · exact hnew m hmem
          · rw [heq, DestroyAgentMtp_eq_free]
            intro hcon
            exact hinst hcon.symm
        rw [findAgentMtpAux_eq_none _ inst hset 0]
        rfl

/-- Witness for C6: the concrete failing population run leaves no slot with
instance 2 reachable. -/
theorem processAgentMtpAdded_failure_releases_slot_witness :
    FindAgentMtpByInstance
      (ProcessAgentMtpAdded 2 failingDestinationDb [initFreeAgentMtp]).store 2 = none :=
  processAgentMtpAdded_failure_releases_slot 2 failingDestinationDb [initFreeAgentMtp]
    (by decide) (by decide) (by decide)

/-- An enabled CoAP slot with stored port 5683 and stored path "p". -/
def coapSlot : agent_mtp_t :=
  { instance_ := 1
    enable := true
    protocol := mtp_protocol_t.kMtpProtocol_CoAP
    stomp_connection_instance := INVALID
    stomp_agent_queue := none
    coap_port := 5683
    coap_path := some "p" }

/-- C3, counterexample: changing the CoAP path of an enabled CoAP slot to the
value it already holds is not a no-op — the handler still stops and restarts
the server — because the path handler, unlike the port handler, performs no
comparison against the stored value. -/
theorem notifyCoAPPath_equal_value_not_noop :
    coapSlot.coap_path = some "p" ∧
    (NotifyChange_AgentMtpCoAPPath 1 "p" UspErr.ok [coapSlot]).actions =
      [Action.coapStop 1, Action.coapStart 1 5683 (some "p")] := by
  decide

/-- C3, amended: the port handler compares against the stored port and is a
no-op (no store, no server action) when unchanged; when changed it stores the
new port and, for an enabled CoAP slot, stops then restarts the server with
the now-current port and path, surfacing the restart result. The path
handler, by contrast, performs no comparison: it always stores the new path
(even when identical to the stored one) and, for an enabled CoAP slot,
always stops then restarts the server, surfacing the restart result. -/
theorem coapPortPathChange_spec (inst1 : Int) (store : MtpStore) (csr : UspErr)
    (i : Nat) (mtp : agent_mtp_t) (h : findAgentMtpAux store inst1 0 = some (i, mtp)) :
    (∀ v : Nat,
      (v = mtp.coap_port →
        NotifyChange_AgentMtpCoAPPort inst1 v csr store = ⟨UspErr.ok, store, []⟩) ∧
      (v ≠ mtp.coap_port →
        NotifyChange_AgentMtpCoAPPort inst1 v csr store =
          if mtp.protocol = mtp_protocol_t.kMtpProtocol_CoAP ∧ mtp.enable = true then
            ⟨csr, store.set i { mtp with coap_port := v },
             [Action.coapStop inst1, Action.coapStart mtp.instance_ v mtp.coap_path]⟩
          else ⟨UspErr.ok, store.set i { mtp with coap_port := v }, []⟩)) ∧
    (∀ s : String,
      NotifyChange_AgentMtpCoAPPath inst1 s csr store =
        if mtp.protocol = mtp_protocol_t.kMtpProtocol_CoAP ∧ mtp.enable = true then
          ⟨csr, store.set i { mtp with coap_path := some s },
           [Action.coapStop inst1, Action.coapStart mtp.instance_ mtp.coap_port (some s)]⟩
        else ⟨UspErr.ok, store.set i { mtp with coap_path := some s }, []⟩) := by
  refine ⟨fun v => ⟨?_, ?_⟩, fun s => ?_⟩
  · intro hv
    simp [NotifyChange_AgentMtpCoAPPort, h, hv]
  · intro hv
    by_cases hc : mtp.protocol = mtp_protocol_t.kMtpProtocol_CoAP ∧ mtp.enable = true <;>
      simp [NotifyChange_AgentMtpCoAPPort, h, hv, hc]
  · by_cases hc : mtp.protocol = mtp_protocol_t.kMtpProtocol_CoAP ∧ mtp.enable = true <;>
      simp [NotifyChange_AgentMtpCoAPPath, h, hc]

/-- Witness for the amended C3 statement: writing the already-stored port
5683 to the enabled CoAP slot is a no-op. -/
theorem coapPortPathChange_spec_witness :
    NotifyChange_AgentMtpCoAPPort 1 5683 UspErr.ok [coapSlot] =
      ⟨UspErr.ok, [coapSlot], []⟩ :=
  ((coapPortPathChange_spec 1 [coapSlot] UspErr.ok 0 coapSlot (by decide)).1 5683).1 rfl

/-- C4: the STOMP reference change handler. On resolution failure the stored
connection reference is forced to the sentinel and the error is returned with
no action issued. On success the resolved reference is stored and, exactly
when the slot is enabled with protocol STOMP and the resolved reference
differs from the previous one, a reconnect is scheduled for the previous
reference if it was set and for the new reference if it is set — up to two
scheduling calls — and no reconnect is scheduled otherwise. -/
theorem stompReferenceChange_spec (inst1 : Int) (store : MtpStore)
    (resolution : UspErr × Int) (i : Nat) (mtp : agent_mtp_t)
    (h : findAgentMtpAux store inst1 0 = some (i, mtp)) :
    (resolution.1 ≠ UspErr.ok →
      NotifyChange_AgentMtpStompReference inst1 resolution store =
        ⟨resolution.1, store.set i { mtp with stomp_connection_instance := INVALID }, []⟩) ∧
    (resolution.1 = UspErr.ok →
      NotifyChange_AgentMtpStompReference inst1 resolution store =
        ⟨UspErr.ok, store.set i { mtp with stomp_connection_instance := resolution.2 },
         if mtp.enable = true ∧ mtp.protocol = mtp_protocol_t.kMtpProtocol_STOMP ∧
            mtp.stomp_connection_instance ≠ resolution.2 then
           (if mtp.stomp_connection_instance ≠ INVALID
            then [Action.scheduleReconnect mtp.stomp_connection_instance] else []) ++
           (if resolution.2 ≠ INVALID
            then [Action.scheduleReconnect resolution.2] else [])
         else []⟩) := by
  constructor
  · intro he
    simp [NotifyChange_AgentMtpStompReference, h, he]
  · intro he
    simp [NotifyChange_AgentMtpStompReference, h, he]

/-- An enabled STOMP slot bound to connection 2, used as the C4 witness. -/
def stompRefSlot : agent_mtp_t :=
  { instance_ := 1
    enable := true
    protocol := mtp_protocol_t.kMtpProtocol_STOMP
    stomp_connection_instance := 2
    stomp_agent_queue := some "q"
    coap_port := 0
    coap_path := none }

/-- Witness for C4: successfully re-resolving the reference of the enabled
STOMP slot from connection 2 to connection 3 stores the new reference and
schedules reconnects for both the old and the new connection. -/
theorem stompReferenceChange_spec_witness :
    NotifyChange_AgentMtpStompReference 1 (UspErr.ok, 3) [stompRefSlot] =
      ⟨UspErr.ok, [{ stompRefSlot with stomp_connection_instance := 3 }],
       [Action.scheduleReconnect 2, Action.scheduleReconnect 3]⟩ := by
  have h := (stompReferenceChange_spec 1 [stompRefSlot] (UspErr.ok, 3) 0 stompRefSlot
    (by decide)).2 rfl
  rw [h]
  decide

/-- C7: the aggregate status accessor — for any slot found by instance, a
disabled slot always reports Down irrespective of protocol and of whatever
the transports would report; an enabled STOMP slot delegates to the STOMP
connection status, an enabled CoAP slot delegates to the CoAP server status,
and an enabled slot with protocol None reports Error. -/
theorem getMtpStatus_spec (stompStatus coapStatus : Int → mtp_status_t) (inst1 : Int)
    (store : MtpStore) (mtp : agent_mtp_t)
    (h : FindAgentMtpByInstance store inst1 = some mtp) :
    (mtp.enable = false →
      Get_MtpStatus stompStatus coapStatus inst1 store = some mtp_status_t.kMtpStatus_Down) ∧
    (mtp.enable = true → mtp.protocol = mtp_protocol_t.kMtpProtocol_STOMP →
      Get_MtpStatus stompStatus coapStatus inst1 store =
        some (stompStatus mtp.stomp_connection_instance)) ∧
    (mtp.enable = true → mtp.protocol = mtp_protocol_t.kMtpProtocol_CoAP →
      Get_MtpStatus stompStatus coapStatus inst1 store = some (coapStatus mtp.instance_)) ∧
    (mtp.enable = true → mtp.protocol = mtp_protocol_t.kMtpProtocol_None →
      Get_MtpStatus stompStatus coapStatus inst1 store =
        some mtp_status_t.kMtpStatus_Error) := by
  refine ⟨?_, ?_, ?_, ?_⟩
  · intro he
    simp [Get_MtpStatus, h, he]
  · intro he hp
    simp [Get_MtpStatus, h, he, hp]
  · intro he hp
    simp [Get_MtpStatus, h, he, hp]
  · intro he hp
    simp [Get_MtpStatus, h, he, hp]

/-- Witness for C7: the disabled slot reports Down even while both transports
would report Up. -/
theorem getMtpStatus_spec_witness :
    Get_MtpStatus (fun _ => mtp_status_t.kMtpStatus_Up) (fun _ => mtp_status_t.kMtpStatus_Up)
      1 [disabledSlot] = some mtp_status_t.kMtpStatus_Down :=
  (getMtpStatus_spec (fun _ => mtp_status_t.kMtpStatus_Up)
    (fun _ => mtp_status_t.kMtpStatus_Up) 1 [disabledSlot] disabledSlot (by decide)).1 rfl

end UspMtp
